import Mathlib

/-!
Verification of `src/main.rs` of the repository `learn-rust-ir`.

The program is:

  use futures::executor::block_on;

  async fn foo() -> i32 {
      let x = 1;
      let y = x + 2;
      futures::future::ready(42).await;
      let result = y + 10;
      result
  }

  fn main() {
      let result = block_on(foo());
      println!("Result: {}", result);
  }

We embed the compiler-synthesized future of `foo` as an explicit state
machine and `block_on` as a fuelled polling loop.  Per the semantics of
Rust's `.await`, when the awaited future is polled it is polled *before*
any yield: the awaiting future returns `Pending` only if the inner future
does.  `futures::future::ready(v)` always polls `Ready(v)`, so `foo`'s
future completes on its very first poll.  i32 arithmetic is embedded as
`Int` with an explicit range check; an overflow (a Rust panic) is `none`.
-/

namespace LearnRustIR

/-- Smallest value of the Rust type `i32`. -/
def i32Min : Int := -(2 ^ 31)

/-- Largest value of the Rust type `i32`. -/
def i32Max : Int := 2 ^ 31 - 1

/-- Rust `i32` addition with panic-on-overflow semantics: `none` models the
fatal overflow abort. -/
def i32CheckedAdd (a b : Int) : Option Int :=
  let s := a + b
  if i32Min ≤ s ∧ s ≤ i32Max then some s else none

/-- The result of polling a future, mirroring `std::task::Poll`. -/
inductive Poll (α : Type) where
  | ready (v : α)
  | pending
deriving DecidableEq

/-- The future built by `futures::future::ready(v)`: it resolves to its
stored value the first time it is polled. -/
structure ReadyFuture where
  value : Int
deriving DecidableEq

/-- Polling `futures::future::ready(v)` always yields `Ready(v)`. -/
def ReadyFuture.poll (f : ReadyFuture) : Poll Int :=
  Poll.ready f.value

/-- The states of the compiler-synthesized coroutine of `async fn foo`:
not yet begun; parked at the single `.await` point holding the local `y`;
or finished holding the returned result. -/
inductive FooState where
  | start
  | suspended (y : Int)
  | done (r : Int)
deriving DecidableEq

/-- Invoking `foo()` builds the future in its initial state; no body code
runs until the future is first polled. -/
def fooInit : FooState := FooState.start

/-- The code of `foo` from the `.await` point on, executed whenever the
future is polled while at that point (including on the first poll, which
reaches the point by running the preceding statements): poll the awaited
`ready` future; on `Pending` yield to the caller, on `Ready` discard the
value, compute `result = y + 10` and return it.  `v` is the value stored
in the awaited `ready` future (42 in the source); `y` is the saved local. -/
def fooAwaitResume (v y : Int) : Option (Poll Int × FooState) :=
  match ReadyFuture.poll ⟨v⟩ with
  | Poll.pending => some (Poll.pending, FooState.suspended y)
  | Poll.ready _ =>
      match i32CheckedAdd y 10 with
      | none => none
      | some r => some (Poll.ready r, FooState.done r)

/-- One poll of `foo`'s future, i.e. the synthesized `Future::poll`.  From
`start` it runs `let x = 1; let y = x + 2;` and falls into the `.await`;
from `suspended y` it re-enters the `.await`; polling after completion is
a panic (`none`), as for any Rust `async fn` future. -/
def fooPoll (v : Int) : FooState → Option (Poll Int × FooState)
  | FooState.start =>
      match i32CheckedAdd 1 2 with
      | none => none
      | some y => fooAwaitResume v y
  | FooState.suspended y => fooAwaitResume v y
  | FooState.done _ => none

/-- `futures::executor::block_on`, specialized to `foo`'s future: poll in
a loop until `Ready`.  `fuel` bounds the number of polls so the loop is a
total function; `none` is a run that panicked or ran out of fuel. -/
def blockOnAux (v : Int) : Nat → FooState → Option Int
  | 0, _ => none
  | fuel + 1, s =>
      match fooPoll v s with
      | none => none
      | some (Poll.ready r, _) => some r
      | some (Poll.pending, s2) => blockOnAux v fuel s2

/-- A complete run `block_on(foo())`: drive a freshly created future of
`foo` (with `v` the value inside the awaited `ready` future) to
completion, allowing at most `fuel` polls. -/
def blockOnFoo (v : Int) (fuel : Nat) : Option Int :=
  blockOnAux v fuel fooInit

/-- The sequence of poll results the driver observes while driving `foo`'s
future from state `s` to completion (at most `fuel` polls). -/
def pollTrace (v : Int) : Nat → FooState → List (Poll Int)
  | 0, _ => []
  | fuel + 1, s =>
      match fooPoll v s with
      | none => []
      | some (Poll.ready r, _) => [Poll.ready r]
      | some (Poll.pending, s2) => Poll.pending :: pollTrace v fuel s2

/-- Whether a poll result is `Pending`. -/
def isPending : Poll Int → Bool
  | Poll.pending => true
  | Poll.ready _ => false

/-- How many times a trace of poll results yields `Pending` to the driver. -/
def pendingCount (t : List (Poll Int)) : Nat :=
  (t.filter isPending).length

/-- The control-flow steps of `foo`'s body between await points, one state
transition at a time: `start → suspended (1+2)` runs the two leading
statements and reaches the `.await`; `suspended y` re-polls the awaited
future, staying put if it is pending and otherwise running the trailing
statements to `done (y+10)`; `done` is terminal. -/
def fooMicroStep (v : Int) : FooState → Option FooState
  | FooState.start => (i32CheckedAdd 1 2).map FooState.suspended
  | FooState.suspended y =>
      match ReadyFuture.poll ⟨v⟩ with
      | Poll.ready _ => (i32CheckedAdd y 10).map FooState.done
      | Poll.pending => some (FooState.suspended y)
  | FooState.done _ => none

/-- The text `main` writes to standard output on a run given `fuel` polls:
`println!("Result: {}", result)` on the value returned by `block_on`. -/
def mainOutputFuel (fuel : Nat) : Option String :=
  (blockOnFoo 42 fuel).map (fun r => "Result: " ++ toString r ++ "\n")

/-- A full run of `main` given `fuel` polls: the text written to standard
output together with the process exit status (0 when `main` returns). -/
def mainRunFuel (fuel : Nat) : Option (String × Nat) :=
  (blockOnFoo 42 fuel).map (fun r => ("Result: " ++ toString r ++ "\n", 0))

/-! ### Basic computation lemmas -/

/-- The first poll of `foo`'s future already completes, with result 13,
whatever value the awaited `ready` future stores. -/
theorem fooPoll_start (v : Int) :
    fooPoll v FooState.start = some (Poll.ready 13, FooState.done 13) := rfl

/-- Any complete run of `block_on(foo())` returns 13. -/
theorem blockOnFoo_complete (v : Int) (fuel : Nat) (r : Int)
    (h : blockOnFoo v fuel = some r) : r = 13 := by
  cases fuel with
  | zero => simp [blockOnFoo, blockOnAux] at h
  | succ n =>
      rw [blockOnFoo, fooInit, blockOnAux, fooPoll_start] at h
      exact (Option.some_inj.mp h).symm

/-- With at least one poll of fuel, `block_on(foo())` completes and
returns 13, whatever value the awaited `ready` future stores. -/
theorem blockOnFoo_eq (v : Int) (fuel : Nat) (h : 1 ≤ fuel) :
    blockOnFoo v fuel = some 13 := by
  obtain ⟨n, rfl⟩ : ∃ n, fuel = n + 1 := ⟨fuel - 1, by omega⟩
  rw [blockOnFoo, fooInit, blockOnAux, fooPoll_start]

/-- A successful `i32CheckedAdd` returns the exact mathematical sum. -/
theorem i32CheckedAdd_some (a b r : Int) (h : i32CheckedAdd a b = some r) :
    r = a + b := by
  rw [i32CheckedAdd] at h
  split at h
  · exact (Option.some_inj.mp h).symm
  · exact Option.noConfusion h

/-! ### Claim theorems -/

/-- C1, counterexample: the claim says every complete run of foo returns
42; in fact a complete run (here with fuel 1) returns 13, which is not 42,
because the value 42 of the awaited ready future is discarded. -/
theorem foo_returns_42_refuted :
    blockOnFoo 42 1 = some 13 ∧ (13 : Int) ≠ 42 :=
  ⟨rfl, by decide⟩

/-- C1 (amended): for every complete run of the Computation unit (the
async function foo) on its fixed literals, the integer it returns equals
13. -/
theorem foo_complete_run_returns_13 (fuel : Nat) (r : Int)
    (h : blockOnFoo 42 fuel = some r) : r = 13 :=
  blockOnFoo_complete 42 fuel r h

/-- C1 witness: a concrete complete run with fuel 1 returns 13. -/
theorem foo_complete_run_returns_13_witness :
    blockOnFoo 42 1 = some 13 ∧ (13 : Int) = 13 :=
  ⟨by decide, foo_complete_run_returns_13 1 13 (by decide)⟩

/-- C2: the Computation unit follows exactly this algorithm: initialize a
value to 1; add 2 to obtain the intermediate value 1 + 2, which the
synthesized machine carries into the await point (the single suspension
point, traversed exactly once); the awaited sub-computation is already
resolved, so it polls ready at once and execution continues immediately,
adding 10 to the intermediate value; the final sum 1 + 2 + 10 is returned
as the result of the driven run. -/
theorem foo_algorithm :
    fooMicroStep 42 fooInit = some (FooState.suspended (1 + 2)) ∧
    ReadyFuture.poll ⟨42⟩ = Poll.ready 42 ∧
    fooMicroStep 42 (FooState.suspended (1 + 2)) =
      some (FooState.done (1 + 2 + 10)) ∧
    fooMicroStep 42 (FooState.done (1 + 2 + 10)) = none ∧
    blockOnFoo 42 1 = some (1 + 2 + 10) := by
  refine ⟨by decide, rfl, by decide, rfl, by decide⟩

/-- C3, counterexample: the claim says the Driver writes exactly the line
Result: 42; in fact a successful run writes the line Result: 13. -/
theorem main_prints_42_refuted :
    mainOutputFuel 1 = some "Result: 13\n" ∧
    mainOutputFuel 1 ≠ some "Result: 42\n" :=
  ⟨rfl, by decide⟩

/-- C3 (amended): on every successful run, the Driver (main) writes to
standard output exactly one line, the text Result: 13 followed by a
newline, and nothing else. -/
theorem main_output_result_13 (fuel : Nat) (h : 1 ≤ fuel) :
    mainOutputFuel fuel = some "Result: 13\n" := by
  rw [mainOutputFuel, blockOnFoo_eq 42 fuel h]
  rfl

/-- C3 witness: the concrete run with fuel 1 writes Result: 13. -/
theorem main_output_result_13_witness :
    mainOutputFuel 1 = some "Result: 13\n" :=
  main_output_result_13 1 (by decide)

/-- C4, counterexample: the claim says the underlying future returns
pending to its driver exactly once per invocation; in fact the complete
run from the initial state returns ready on the very first poll, so the
driver observes zero pendings, not one. -/
theorem foo_yields_once_refuted :
    pollTrace 42 2 fooInit = [Poll.ready 13] ∧
    pendingCount (pollTrace 42 2 fooInit) ≠ 1 :=
  ⟨rfl, by decide⟩

/-- C4 (amended): in every invocation of the Computation unit the
underlying future never yields (never returns pending to its driver): the
awaited dependency is constructed already-resolved and never reports
not-ready, so the future completes on its very first poll and the driver
polling loop never has to resume it before reaching the terminal state. -/
theorem foo_never_pending (v : Int) (fuel : Nat) :
    pendingCount (pollTrace v fuel fooInit) = 0 ∧
    (1 ≤ fuel → pollTrace v fuel fooInit = [Poll.ready 13]) := by
  cases fuel with
  | zero => exact ⟨rfl, fun h => absurd h (by omega)⟩
  | succ n => exact ⟨rfl, fun _ => rfl⟩

/-- C4 witness: with the source value 42 and fuel 1 the trace is a single
ready poll with zero pendings. -/
theorem foo_never_pending_witness :
    pendingCount (pollTrace 42 1 fooInit) = 0 ∧
    pollTrace 42 1 fooInit = [Poll.ready 13] :=
  ⟨(foo_never_pending 42 1).1, (foo_never_pending 42 1).2 (by decide)⟩

/-- C5: the lifecycle of the synthesized coroutine of foo is a three-state
machine with states Start, Suspended (holding the intermediate value) and
Done: its only transitions are Start to Suspended 3 (the first two
arithmetic steps) and Suspended y to Done (y + 10) (the remaining
arithmetic step); no step ever leads back to Start (single-shot), the two
reachable transitions cannot fail, and Done is terminal. -/
theorem foo_lifecycle :
    (∀ s s2 : FooState, fooMicroStep 42 s = some s2 →
        ((s = FooState.start ∧ s2 = FooState.suspended 3) ∨
          ∃ y, s = FooState.suspended y ∧ s2 = FooState.done (y + 10)) ∧
        s2 ≠ FooState.start) ∧
    fooMicroStep 42 fooInit = some (FooState.suspended 3) ∧
    fooMicroStep 42 (FooState.suspended 3) = some (FooState.done 13) ∧
    fooMicroStep 42 (FooState.done 13) = none := by
  refine ⟨?_, by decide, by decide, rfl⟩
  intro s s2 h
  cases s with
  | start =>
      have h3 : i32CheckedAdd 1 2 = some 3 := by decide
      simp only [fooMicroStep, h3, Option.map_some'] at h
      obtain rfl : FooState.suspended 3 = s2 := Option.some_inj.mp h
      exact ⟨Or.inl ⟨rfl, rfl⟩, by decide⟩
  | suspended y =>
      simp only [fooMicroStep, ReadyFuture.poll] at h
      obtain ⟨r, hr, hs2⟩ := Option.map_eq_some'.mp h
      obtain rfl : r = y + 10 := i32CheckedAdd_some y 10 r hr
      subst hs2
      exact ⟨Or.inr ⟨y, rfl, rfl⟩, fun hc => FooState.noConfusion hc⟩
  | done r => exact Option.noConfusion h

/-- C5 witness: the universally quantified part of the lifecycle theorem
applied to the concrete transition out of Start. -/
theorem foo_lifecycle_witness :
    ((FooState.start = FooState.start ∧
        FooState.suspended 3 = FooState.suspended 3) ∨
      ∃ y, FooState.start = FooState.suspended y ∧
        FooState.suspended 3 = FooState.done (y + 10)) ∧
    FooState.suspended 3 ≠ FooState.start :=
  foo_lifecycle.1 FooState.start (FooState.suspended 3) (by decide)

/-- C6: with the fixed literals, neither addition of foo overflows the
i32 range, so the fatal-overflow branch (the none result of
i32CheckedAdd) is unreachable and every run with enough fuel completes
normally. -/
theorem foo_no_overflow :
    i32CheckedAdd 1 2 = some 3 ∧ i32CheckedAdd 3 10 = some 13 ∧
    ∀ fuel : Nat, 1 ≤ fuel → (blockOnFoo 42 fuel).isSome = true := by
  refine ⟨by decide, by decide, fun fuel h => ?_⟩
  rw [blockOnFoo_eq 42 fuel h]
  rfl

/-- C6 witness: the overflow-freedom theorem applied at fuel 1. -/
theorem foo_no_overflow_witness :
    i32CheckedAdd 1 2 = some 3 ∧ i32CheckedAdd 3 10 = some 13 ∧
    (blockOnFoo 42 1).isSome = true :=
  ⟨foo_no_overflow.1, foo_no_overflow.2.1, foo_no_overflow.2.2 1 (by decide)⟩

/-- C7: under normal operation (enough fuel for the single poll) main
always completes: it prints its one output line and the process exits with
success status 0; the embedding of the Driver returns some value, never an
error. -/
theorem main_exits_success (fuel : Nat) (h : 1 ≤ fuel) :
    mainRunFuel fuel = some ("Result: 13\n", 0) := by
  rw [mainRunFuel, blockOnFoo_eq 42 fuel h]
  rfl

/-- C7 witness: the concrete run with fuel 1 prints and exits with 0. -/
theorem main_exits_success_witness :
    mainRunFuel 1 = some ("Result: 13\n", 0) :=
  main_exits_success 1 (by decide)

/-- C8: the Computation unit is deterministic: it takes no input, and any
two complete invocations (any fuels that reach completion) return the same
integer. -/
theorem foo_deterministic (f1 f2 : Nat) (r1 r2 : Int)
    (h1 : blockOnFoo 42 f1 = some r1) (h2 : blockOnFoo 42 f2 = some r2) :
    r1 = r2 :=
  (blockOnFoo_complete 42 f1 r1 h1).trans
    (blockOnFoo_complete 42 f2 r2 h2).symm

/-- C8 witness: two concrete complete invocations, with fuels 1 and 2,
return equal results. -/
theorem foo_deterministic_witness :
    blockOnFoo 42 1 = some 13 ∧ blockOnFoo 42 2 = some 13 ∧ (13 : Int) = 13 :=
  ⟨by decide, by decide, foo_deterministic 1 2 13 13 (by decide) (by decide)⟩

/-- C9, counterexample: the claim says every independent invocation
returns 42; two independent complete invocations both return 13, and
some 13 is not some 42. -/
theorem foo_repeated_42_refuted :
    blockOnFoo 42 1 = some 13 ∧ blockOnFoo 42 2 = some 13 ∧
    (some (13 : Int) ≠ some (42 : Int)) :=
  ⟨rfl, rfl, by decide⟩

/-- C9 (amended): when the Computation unit is invoked multiple times
independently, every invocation returns 13; each invocation is a function
of its own fuel alone and starts from the fresh initial state fooInit, so
no state from one invocation affects a later one. -/
theorem foo_repeated_returns_13 (f1 f2 : Nat) (h1 : 1 ≤ f1) (h2 : 1 ≤ f2) :
    blockOnFoo 42 f1 = some 13 ∧ blockOnFoo 42 f2 = some 13 :=
  ⟨blockOnFoo_eq 42 f1 h1, blockOnFoo_eq 42 f2 h2⟩

/-- C9 witness: two concrete independent invocations both return 13. -/
theorem foo_repeated_returns_13_witness :
    blockOnFoo 42 1 = some 13 ∧ blockOnFoo 42 2 = some 13 :=
  foo_repeated_returns_13 1 2 (by decide) (by decide)

/-- C10: the value carried by the already-resolved dependency awaited at
the suspension point is discarded: for every integer v, replacing the
awaited ready value 42 by v leaves the returned result of the driven
Computation unit unchanged, and any run with enough fuel still returns
13, which depends only on the literals 1, 2 and 10. -/
theorem foo_ignores_ready_value (v : Int) (fuel : Nat) :
    blockOnFoo v fuel = blockOnFoo 42 fuel ∧
    (1 ≤ fuel → blockOnFoo v fuel = some 13) := by
  cases fuel with
  | zero => exact ⟨rfl, fun h => absurd h (by omega)⟩
  | succ n =>
      have h1 := blockOnFoo_eq v (n + 1) (by omega)
      have h2 := blockOnFoo_eq 42 (n + 1) (by omega)
      exact ⟨h1.trans h2.symm, fun _ => h1⟩

/-- C10 witness: with the awaited ready value replaced by 7, a concrete
run still returns 13. -/
theorem foo_ignores_ready_value_witness :
    blockOnFoo 7 1 = blockOnFoo 42 1 ∧ blockOnFoo 7 1 = some 13 :=
  ⟨(foo_ignores_ready_value 7 1).1, (foo_ignores_ready_value 7 1).2 (by decide)⟩

end LearnRustIR
